import Mathlib

/-!
Verification of `src/NetMonitor/network_monitor.py`.

The Python program is a PyQt desktop widget with two logical components:
a rate sampler (`NetworkMonitor`) turning cumulative OS byte counters
into Mbps figures, and a geometry controller (`UnifiedNetworkWidget`)
handling collapse/expand, drag, resize and edge snapping.

Shallow embedding conventions:
- Python floats (timestamps, speeds) are modelled as `ℚ`;
- Python ints (byte counters, pixel coordinates) as `ℤ`;
- Python `//` (floor division) as `Int.fdiv`;
- a failing `psutil.net_io_counters()` call (the only statement inside
  the `try` of `get_network_speed` that can raise before any state is
  mutated, besides `time.time()`) is modelled as an `Option NetStats`
  input being `none`;
- Qt side effects with no bearing on the modelled state (style sheets,
  cursors, fonts, repaints, the auxiliary single-shot timers) are
  dropped; the `update_timer` is modelled as the Boolean `timer_active`;
- an animation (`QPropertyAnimation` from the current geometry to a
  target rectangle) is modelled by its end state.
-/

set_option autoImplicit false

namespace NetMonitor

/-- Result of `psutil.net_io_counters()`: the cumulative byte counters
the sampler consumes. -/
structure NetStats where
  bytes_sent : ℤ
  bytes_recv : ℤ

/-- State of the Python class `NetworkMonitor`. -/
structure NetworkMonitor where
  last_bytes_sent : ℤ
  last_bytes_recv : ℤ
  last_time : ℚ

/-- Python `NetworkMonitor.get_network_speed`, lines 78-103.  Takes the current
time (`time.time()`) and the counter read (`none` when the read raises).
Returns the `(upload, download)` pair together with the post-call
monitor state. -/
def get_network_speed (m : NetworkMonitor) (current_time : ℚ)
    (stats : Option NetStats) : (ℚ × ℚ) × NetworkMonitor :=
  match stats with
  | none => ((0, 0), m)
  | some stats =>
      let time_diff := current_time - m.last_time
      if time_diff ≤ 0 then ((0, 0), m)
      else
        let bytes_sent_diff := stats.bytes_sent - m.last_bytes_sent
        let bytes_recv_diff := stats.bytes_recv - m.last_bytes_recv
        let upload_speed := ((bytes_sent_diff : ℚ) / time_diff) * 8 / (1024 * 1024)
        let download_speed := ((bytes_recv_diff : ℚ) / time_diff) * 8 / (1024 * 1024)
        ((upload_speed, download_speed),
         { last_bytes_sent := stats.bytes_sent
           last_bytes_recv := stats.bytes_recv
           last_time := current_time })

/-- Round to the nearest integer, ties to even: the rounding Python's
fixed-point string formatting applies to the decimal value. -/
def roundHalfEven (q : ℚ) : ℤ :=
  let f := ⌊q⌋
  if q - f < 1 / 2 then f
  else if 1 / 2 < q - f then f + 1
  else if f % 2 = 0 then f else f + 1

/-- Model of the Python f-string `f"{q:.n f}"`: fixed-point rendering of
`q` with `n` digits after the decimal point. -/
def formatFixed (q : ℚ) (n : ℕ) : String :=
  let scaled := roundHalfEven (q * (10 : ℚ) ^ n)
  let mag := scaled.natAbs
  let ip := mag / 10 ^ n
  let fp := mag % 10 ^ n
  let fracStr := toString fp
  let fracPad := String.mk (List.replicate (n - fracStr.length) '0') ++ fracStr
  (if q < 0 then "-" else "") ++ toString ip ++ "." ++ fracPad

/-- Python `NetworkMonitor.format_speed`, lines 105-112. -/
def format_speed (speed_mbps : ℚ) : String :=
  if speed_mbps ≥ 1 then
    formatFixed speed_mbps 2 ++ " Mbps"
  else
    let speed_kbps := speed_mbps * 1024
    formatFixed speed_kbps 1 ++ " Kbps"

/-- Claim C5, stated in the spec's words: `f"{s:.2f} Mbps"` when
`s ≥ 1.0`, otherwise `f"{s*1024:.1f} Kbps"` where the Kbps figure is the
Mbps figure multiplied by 1024. -/
def format_speed_claim (s : ℚ) : String :=
  if s ≥ 1 then formatFixed s 2 ++ " Mbps"
  else formatFixed (s * 1024) 1 ++ " Kbps"

/-! Widget geometry controller (`UnifiedNetworkWidget`).  The constants
below are set once in `__init__` (lines 174-189) and never reassigned. -/

/-- Collapsed widget width (line 174). -/
def widget_width : ℤ := 12

/-- Collapsed widget height (line 175). -/
def widget_height : ℤ := 40

/-- Minimum expanded panel width (line 178). -/
def min_panel_width : ℤ := 220

/-- Minimum expanded panel height (line 179). -/
def min_panel_height : ℤ := 120

/-- Maximum expanded panel width (line 180). -/
def max_panel_width : ℤ := 500

/-- Maximum expanded panel height (line 181). -/
def max_panel_height : ℤ := 400

/-- Drag threshold in pixels (line 188). -/
def drag_threshold : ℤ := 5

/-- Resize-zone margin in pixels (line 189). -/
def resize_threshold : ℤ := 8

/-- Qt resize cursor shapes used to tag the active resize mode. -/
inductive CursorKind where
  | sizeHor
  | sizeVer
  | sizeFDiag
  | sizeBDiag
deriving DecidableEq

/-- Python `QPoint.manhattanLength`. -/
def manhattanLength (p : ℤ × ℤ) : ℤ := |p.1| + |p.2|

/-- Mutable state of `UnifiedNetworkWidget` relevant to the claims.
`x`, `y`, `width`, `height` are the Qt window geometry; `timer_active`
models whether `update_timer` is running. -/
structure WidgetState where
  screen_width : ℤ
  screen_height : ℤ
  panel_width : ℤ
  panel_height : ℤ
  is_expanded : Bool
  is_on_right : Bool
  dragging : Bool
  resizing : Bool
  timer_active : Bool
  hover_expand_enabled : Bool
  x : ℤ
  y : ℤ
  width : ℤ
  height : ℤ
  mouse_press_position : ℤ × ℤ
  drag_start_position : ℤ × ℤ
  resize_start_position : ℤ × ℤ
  resize_start_size : ℤ × ℤ
  resize_start_geometry : ℤ × ℤ
  resize_cursor_type : CursorKind
  network_monitor : Option NetworkMonitor
  upload_text : String
  download_text : String

/-- Python `set_collapsed_state`, lines 390-401: collapse, fix the small size,
stop the update timer. -/
def set_collapsed_state (s : WidgetState) : WidgetState :=
  { s with is_expanded := false, width := widget_width, height := widget_height,
           timer_active := false }

/-- Python `set_expanded_state`, lines 403-419: expand, fix the panel size,
create the monitor if absent (`im` is the freshly initialised monitor
used in that case), start the update timer. -/
def set_expanded_state (s : WidgetState) (im : NetworkMonitor) : WidgetState :=
  { s with is_expanded := true, width := s.panel_width, height := s.panel_height,
           network_monitor := some (s.network_monitor.getD im),
           timer_active := true }

/-- Python `animate_to_edge`, lines 652-688, modelled by the end state of the
geometry animation: the target x depends on expansion and edge, the
target y is the current y clamped to the screen. -/
def animate_to_edge (s : WidgetState) : WidgetState :=
  let target_x :=
    if s.is_expanded then
      if s.is_on_right then s.screen_width - s.panel_width - 10 else 10
    else
      if s.is_on_right then s.screen_width - widget_width else 0
  let target_width := if s.is_expanded then s.panel_width else widget_width
  let target_height := if s.is_expanded then s.panel_height else widget_height
  let target_y := max 0 (min s.y (s.screen_height - target_height))
  { s with x := target_x, y := target_y, width := target_width, height := target_height }

/-- Python `snap_to_edge`, lines 632-650: choose the nearer edge from the
horizontal centre, then animate there. -/
def snap_to_edge (s : WidgetState) : WidgetState :=
  let center_x :=
    if s.is_expanded then s.x + Int.fdiv s.panel_width 2
    else s.x + Int.fdiv widget_width 2
  animate_to_edge { s with is_on_right := decide (center_x > Int.fdiv s.screen_width 2) }

/-- Python `collapse_widget`, lines 712-722. -/
def collapse_widget (s : WidgetState) : WidgetState :=
  animate_to_edge (set_collapsed_state s)

/-- Python `expand_widget`, lines 697-710. -/
def expand_widget (s : WidgetState) (im : NetworkMonitor) : WidgetState :=
  animate_to_edge (set_expanded_state s im)

/-- Python `update_network_speeds`, lines 724-738: the timer tick.  Besides the
post state it returns whether a sample was actually taken.  `t` and
`stats` are the inputs the sampler would consume. -/
def update_network_speeds (s : WidgetState) (t : ℚ) (stats : Option NetStats) :
    WidgetState × Bool :=
  if s.is_expanded = false then (s, false)
  else
    match s.network_monitor with
    | none => (s, false)
    | some m =>
        let r := get_network_speed m t stats
        ({ s with network_monitor := some r.2,
                  upload_text := format_speed r.1.1,
                  download_text := format_speed r.1.2 }, true)

/-- Python `get_resize_cursor_zone`, lines 871-899.  `pos` is widget-local. -/
def get_resize_cursor_zone (s : WidgetState) (pos : ℤ × ℤ) : Option CursorKind :=
  if s.is_expanded = false then none
  else
    let margin := resize_threshold
    if pos.1 ≤ margin ∧ pos.2 ≤ margin then some .sizeFDiag
    else if pos.1 ≥ s.width - margin ∧ pos.2 ≤ margin then some .sizeBDiag
    else if pos.1 ≤ margin ∧ pos.2 ≥ s.height - margin then some .sizeBDiag
    else if pos.1 ≥ s.width - margin ∧ pos.2 ≥ s.height - margin then some .sizeFDiag
    else if pos.1 ≤ margin then some .sizeHor
    else if pos.1 ≥ s.width - margin then some .sizeHor
    else if pos.2 ≤ margin then some .sizeVer
    else if pos.2 ≥ s.height - margin then some .sizeVer
    else none

/-- Python `start_resize`, lines 901-909. -/
def start_resize (s : WidgetState) (pos : ℤ × ℤ) (cursor : CursorKind) : WidgetState :=
  { s with resizing := true, resize_start_position := pos,
           resize_start_size := (s.width, s.height),
           resize_start_geometry := (s.x, s.y),
           resize_cursor_type := cursor }

/-- Raw (unconstrained) width/height/x/y computed by `perform_resize`
before the size clamp, lines 916-997. -/
structure ResizeRaw where
  w : ℤ
  h : ℤ
  rx : ℤ
  ry : ℤ

/-- The per-cursor branch of `perform_resize` (lines 922-997) computing
the raw geometry from the pointer position. -/
def resize_raw (s : WidgetState) (pos : ℤ × ℤ) : ResizeRaw :=
  let delta : ℤ × ℤ := (pos.1 - s.resize_start_position.1, pos.2 - s.resize_start_position.2)
  let sw := s.resize_start_size.1
  let sh := s.resize_start_size.2
  let gx := s.resize_start_geometry.1
  let gy := s.resize_start_geometry.2
  let start_local_x := s.resize_start_position.1 - gx
  let start_local_y := s.resize_start_position.2 - gy
  match s.resize_cursor_type with
  | .sizeHor =>
      if start_local_x ≤ resize_threshold then
        { w := sw - delta.1, h := sh, rx := gx + delta.1, ry := gy }
      else
        { w := sw + delta.1, h := sh, rx := gx, ry := gy }
  | .sizeVer =>
      if start_local_y ≤ resize_threshold then
        { w := sw, h := sh - delta.2, rx := gx, ry := gy + delta.2 }
      else
        { w := sw, h := sh + delta.2, rx := gx, ry := gy }
  | .sizeFDiag =>
      if start_local_x ≤ resize_threshold ∧ start_local_y ≤ resize_threshold then
        { w := sw - delta.1, h := sh - delta.2, rx := gx + delta.1, ry := gy + delta.2 }
      else
        { w := sw + delta.1, h := sh + delta.2, rx := gx, ry := gy }
  | .sizeBDiag =>
      if start_local_x ≥ s.width - resize_threshold ∧ start_local_y ≤ resize_threshold then
        { w := sw + delta.1, h := sh - delta.2, rx := gx, ry := gy + delta.2 }
      else
        { w := sw - delta.1, h := sh + delta.2, rx := gx + delta.1, ry := gy }

/-- The size clamp of `perform_resize`, lines 999-1005 (also used by
`load_position`, lines 492-494). -/
def clampW (w : ℤ) : ℤ := max min_panel_width (min w max_panel_width)

/-- The height clamp, lines 1003-1005 (also `load_position` 495-497). -/
def clampH (h : ℤ) : ℤ := max min_panel_height (min h max_panel_height)

/-- Python `perform_resize`, lines 911-1026: raw geometry from the pointer,
clamped size, position re-adjustment when the size was constrained on a
left/top handle, then panel dimensions and window geometry update. -/
def perform_resize (s : WidgetState) (pos : ℤ × ℤ) : WidgetState :=
  if s.resizing = false then s
  else
    let r := resize_raw s pos
    let gx := s.resize_start_geometry.1
    let gy := s.resize_start_geometry.2
    let cw := clampW r.w
    let ch := clampH r.h
    let nx := if r.w ≠ cw ∧ r.rx ≠ gx then gx + (s.resize_start_size.1 - cw) else r.rx
    let ny := if r.h ≠ ch ∧ r.ry ≠ gy then gy + (s.resize_start_size.2 - ch) else r.ry
    { s with panel_width := cw, panel_height := ch,
             x := nx, y := ny, width := cw, height := ch }

/-- Python `finish_resize`, lines 1028-1037. -/
def finish_resize (s : WidgetState) : WidgetState :=
  if s.resizing then
    { s with resizing := false, width := s.panel_width, height := s.panel_height }
  else s

/-- The unconditional part of `mousePressEvent`, lines 559-565: record
the press position and the drag offset, clear both flags. -/
def pressBase (s : WidgetState) (g : ℤ × ℤ) : WidgetState :=
  { s with mouse_press_position := g,
           drag_start_position := (g.1 - s.x, g.2 - s.y),
           dragging := false, resizing := false }

/-- Python `mousePressEvent` (left button), lines 557-576. -/
def mousePressEvent (s : WidgetState) (g : ℤ × ℤ) (l : ℤ × ℤ) : WidgetState :=
  let s1 := pressBase s g
  if s1.is_expanded then
    match get_resize_cursor_zone s1 l with
    | some cursor => start_resize s1 g cursor
    | none => s1
  else s1

/-- Python `mouseMoveEvent` with the left button held, lines 578-599. -/
def mouseMoveEventHeld (s : WidgetState) (g : ℤ × ℤ) : WidgetState :=
  if s.resizing then perform_resize s g
  else
    let s1 :=
      if s.dragging = false ∧ s.resizing = false ∧
          manhattanLength (g.1 - s.mouse_press_position.1, g.2 - s.mouse_press_position.2) >
            drag_threshold then
        { s with dragging := true }
      else s
    if s1.dragging then
      { s1 with x := g.1 - s1.drag_start_position.1, y := g.2 - s1.drag_start_position.2 }
    else s1

/-- Python `mouseReleaseEvent` (left button), lines 610-630.  `im` is the
monitor `set_expanded_state` would create were the release to expand. -/
def mouseReleaseEvent (s : WidgetState) (im : NetworkMonitor) : WidgetState :=
  if s.resizing then finish_resize s
  else if s.dragging then { snap_to_edge s with dragging := false }
  else if s.is_expanded then collapse_widget s
  else if s.hover_expand_enabled = false then expand_widget s im
  else s

/-- Data parsed from `widget_position.json` (`save_position` writes all
of these keys; `load_position` also reads them, with defaults that we
fold into the record). -/
structure PositionData where
  x : ℤ
  y : ℤ
  width : ℤ
  height : ℤ
  is_on_right : Bool
  hover_expand_enabled : Bool

/-- Python `position_widget`, lines 421-452: default placement used when no
saved position exists. -/
def position_widget (s : WidgetState) : WidgetState :=
  if s.is_expanded then
    let px := if s.is_on_right then s.screen_width - s.panel_width - 10 else 10
    let current_y := if s.y > 0 then s.y else Int.fdiv (s.screen_height - s.panel_height) 2
    { s with x := px, y := max 0 (min current_y (s.screen_height - s.panel_height)) }
  else
    let px := if s.is_on_right then s.screen_width - widget_width else 0
    let current_y := if s.y > 0 then s.y else Int.fdiv (s.screen_height - widget_height) 2
    { s with x := px, y := max 0 (min current_y (s.screen_height - widget_height)) }

/-- Python `load_position`, lines 473-531.  `data = none` models a missing or
unreadable file (the `else` and `except` branches both fall back to
`position_widget`). -/
def load_position (s : WidgetState) (data : Option PositionData) : WidgetState :=
  match data with
  | none => position_widget s
  | some d =>
      let s1 := { s with is_on_right := d.is_on_right,
                         hover_expand_enabled := d.hover_expand_enabled,
                         panel_width := clampW d.width,
                         panel_height := clampH d.height }
      let mx := if s1.is_expanded then s1.screen_width - s1.panel_width
                else s1.screen_width - widget_width
      let my := if s1.is_expanded then s1.screen_height - s1.panel_height
                else s1.screen_height - widget_height
      { s1 with x := max 0 (min d.x mx), y := max 0 (min d.y my) }

/-- Python `show_launch_animation`, lines 740-797, modelled by the end state of
the slide-in: expanded, positioned at the edge target. -/
def show_launch_animation (s : WidgetState) (im : NetworkMonitor) : WidgetState :=
  let s1 := set_expanded_state s im
  let final_x := if s1.is_on_right then s1.screen_width - s1.panel_width - 10 else 10
  let current_y := if s1.y > 0 then s1.y else Int.fdiv (s1.screen_height - s1.panel_height) 2
  let final_y := max 0 (min current_y (s1.screen_height - s1.panel_height))
  { s1 with x := final_x, y := final_y }

/-- The state right after `UnifiedNetworkWidget.__init__` (lines
160-239): field defaults, then `set_collapsed_state`, `load_position`
and `show_launch_animation`.  `sw`, `sh` are the primary-screen
dimensions, `data` the parsed persistence file, `im` the monitor the
launch expansion creates. -/
def initial_state (sw sh : ℤ) (data : Option PositionData) (im : NetworkMonitor) :
    WidgetState :=
  let s0 : WidgetState :=
    { screen_width := sw, screen_height := sh
      panel_width := 280, panel_height := 160
      is_expanded := false, is_on_right := true
      dragging := false, resizing := false
      timer_active := false, hover_expand_enabled := true
      x := 0, y := 0, width := widget_width, height := widget_height
      mouse_press_position := (0, 0), drag_start_position := (0, 0)
      resize_start_position := (0, 0), resize_start_size := (0, 0)
      resize_start_geometry := (0, 0), resize_cursor_type := .sizeHor
      network_monitor := none
      upload_text := "0.00 Mbps", download_text := "0.00 Mbps" }
  show_launch_animation (load_position (set_collapsed_state s0) data) im

/-- External events driving the widget's handlers.  Data an event would
read from the environment (pointer positions, time, counters, the
persistence file, a freshly created monitor) is carried in the event. -/
inductive Event where
  | press (g l : ℤ × ℤ)
  | moveHeld (g : ℤ × ℤ)
  | moveFree (g : ℤ × ℤ)
  | release (im : NetworkMonitor)
  | timerCollapse
  | hoverEnter (im : NetworkMonitor)
  | hoverLeave
  | tick (t : ℚ) (stats : Option NetStats)
  | toggleHover
  | trayShow (im : NetworkMonitor)

/-- One step of the widget: dispatch an event to its handler.
`timerCollapse` covers the single-shot timers and the global outside
click, all wired to `collapse_widget`; `hoverEnter` is `enterEvent`
(lines 1039-1052), `trayShow` the tray's `show_monitor`; `moveFree`
and `hoverLeave` only touch cursors and timers we do not model. -/
def step (s : WidgetState) : Event → WidgetState
  | .press g l => mousePressEvent s g l
  | .moveHeld g => mouseMoveEventHeld s g
  | .moveFree _ => s
  | .release im => mouseReleaseEvent s im
  | .timerCollapse => collapse_widget s
  | .hoverEnter im =>
      if s.hover_expand_enabled ∧ s.is_expanded = false ∧
          s.dragging = false ∧ s.resizing = false then
        expand_widget s im
      else s
  | .hoverLeave => s
  | .tick t stats => (update_network_speeds s t stats).1
  | .toggleHover => { s with hover_expand_enabled := !s.hover_expand_enabled }
  | .trayShow im => if s.is_expanded = false then expand_widget s im else s

/-- States reachable from program start by any event sequence. -/
inductive Reachable : WidgetState → Prop where
  | init (sw sh : ℤ) (data : Option PositionData) (im : NetworkMonitor) :
      Reachable (initial_state sw sh data im)
  | next (s : WidgetState) (e : Event) : Reachable s → Reachable (step s e)

/-- The `WidgetState` fields of the spec's data model: expanded flag,
edge, position, window size, panel size, dragging, resizing. -/
def geometry_view (s : WidgetState) :
    Bool × Bool × (ℤ × ℤ) × (ℤ × ℤ) × (ℤ × ℤ) × Bool × Bool :=
  (s.is_expanded, s.is_on_right, (s.x, s.y), (s.width, s.height),
   (s.panel_width, s.panel_height), s.dragging, s.resizing)

/-- A concrete monitor state for witnesses. -/
def exMon : NetworkMonitor := ⟨0, 0, 0⟩

/-- A concrete collapsed widget mid-drag on a 1920x1080 screen. -/
def exDragState : WidgetState where
  screen_width := 1920
  screen_height := 1080
  panel_width := 280
  panel_height := 160
  is_expanded := false
  is_on_right := true
  dragging := true
  resizing := false
  timer_active := false
  hover_expand_enabled := true
  x := 1900
  y := 500
  width := 12
  height := 40
  mouse_press_position := (1905, 505)
  drag_start_position := (5, 5)
  resize_start_position := (0, 0)
  resize_start_size := (0, 0)
  resize_start_geometry := (0, 0)
  resize_cursor_type := .sizeHor
  network_monitor := none
  upload_text := "0.00 Mbps"
  download_text := "0.00 Mbps"

/-- A concrete expanded widget mid-resize (bottom-right corner). -/
def exResizeState : WidgetState where
  screen_width := 1920
  screen_height := 1080
  panel_width := 280
  panel_height := 160
  is_expanded := true
  is_on_right := true
  dragging := false
  resizing := true
  timer_active := true
  hover_expand_enabled := true
  x := 1630
  y := 460
  width := 280
  height := 160
  mouse_press_position := (1905, 615)
  drag_start_position := (275, 155)
  resize_start_position := (1905, 615)
  resize_start_size := (280, 160)
  resize_start_geometry := (1630, 460)
  resize_cursor_type := .sizeFDiag
  network_monitor := none
  upload_text := "0.00 Mbps"
  download_text := "0.00 Mbps"

/-- A concrete idle collapsed widget on the left edge. -/
def exIdleState : WidgetState where
  screen_width := 1920
  screen_height := 1080
  panel_width := 280
  panel_height := 160
  is_expanded := false
  is_on_right := false
  dragging := false
  resizing := false
  timer_active := false
  hover_expand_enabled := true
  x := 0
  y := 500
  width := 12
  height := 40
  mouse_press_position := (0, 0)
  drag_start_position := (0, 0)
  resize_start_position := (0, 0)
  resize_start_size := (0, 0)
  resize_start_geometry := (0, 0)
  resize_cursor_type := .sizeHor
  network_monitor := none
  upload_text := "0.00 Mbps"
  download_text := "0.00 Mbps"

/-- A concrete expanded idle widget (no drag, no resize). -/
def exExpandedState : WidgetState where
  screen_width := 1920
  screen_height := 1080
  panel_width := 280
  panel_height := 160
  is_expanded := true
  is_on_right := true
  dragging := false
  resizing := false
  timer_active := true
  hover_expand_enabled := true
  x := 1630
  y := 460
  width := 280
  height := 160
  mouse_press_position := (0, 0)
  drag_start_position := (0, 0)
  resize_start_position := (0, 0)
  resize_start_size := (0, 0)
  resize_start_geometry := (0, 0)
  resize_cursor_type := .sizeHor
  network_monitor := none
  upload_text := "0.00 Mbps"
  download_text := "0.00 Mbps"

/-! Theorems settling the claims. -/

/-- C1: for every successful sample (counters read without an exception
and a positive elapsed time), `get_network_speed` returns the pair
`(upload, download)` with `upload = (bytes_sent_now - last_bytes_sent) /
(now - last_time) * 8 / (1024*1024)` and `download` computed identically
from `bytes_recv`, and afterwards the stored `last_bytes_sent`,
`last_bytes_recv` and `last_time` equal the newly sampled values. -/
theorem get_network_speed_success_spec (m : NetworkMonitor) (t : ℚ)
    (st : NetStats) (h : 0 < t - m.last_time) :
    get_network_speed m t (some st) =
      ((((st.bytes_sent : ℚ) - (m.last_bytes_sent : ℚ)) / (t - m.last_time) * 8 / (1024 * 1024),
        ((st.bytes_recv : ℚ) - (m.last_bytes_recv : ℚ)) / (t - m.last_time) * 8 / (1024 * 1024)),
       { last_bytes_sent := st.bytes_sent
         last_bytes_recv := st.bytes_recv
         last_time := t }) := by
  simp only [get_network_speed]
  rw [if_neg (not_le.mpr h)]
  push_cast
  rfl

/-- Witness for C1 at a concrete successful sample. -/
theorem get_network_speed_success_spec_witness :
    get_network_speed ⟨0, 0, 5⟩ 7 (some ⟨2097152, 4194304⟩) =
      (((((2097152 : ℤ) : ℚ) - ((0 : ℤ) : ℚ)) / (7 - 5) * 8 / (1024 * 1024),
        (((4194304 : ℤ) : ℚ) - ((0 : ℤ) : ℚ)) / (7 - 5) * 8 / (1024 * 1024)),
       ⟨2097152, 4194304, 7⟩) :=
  get_network_speed_success_spec ⟨0, 0, 5⟩ 7 ⟨2097152, 4194304⟩ (by norm_num)

/-- C9: `get_network_speed` returns `(0, 0)` whenever the elapsed time
is zero or negative or the counter read raises, and in both cases the
stored sampler state is left unchanged. -/
theorem get_network_speed_failure_paths (m : NetworkMonitor) (t : ℚ)
    (stats : Option NetStats) (h : t - m.last_time ≤ 0 ∨ stats = none) :
    get_network_speed m t stats = ((0, 0), m) := by
  cases stats with
  | none => rfl
  | some st =>
      rcases h with h | h
      · simp only [get_network_speed]
        rw [if_pos h]
      · exact absurd h (by simp)

/-- Witness for C9 at a concrete zero-elapsed-time sample. -/
theorem get_network_speed_failure_paths_witness :
    get_network_speed ⟨0, 0, 5⟩ 5 (some ⟨3, 4⟩) = ((0, 0), ⟨0, 0, 5⟩) :=
  get_network_speed_failure_paths ⟨0, 0, 5⟩ 5 (some ⟨3, 4⟩) (Or.inl (by norm_num))

/-- C5: `format_speed` agrees everywhere with the spec's description:
`f"{s:.2f} Mbps"` when `s ≥ 1.0`, else `f"{s*1024:.1f} Kbps"`, the Kbps
figure being the Mbps figure multiplied by 1024. -/
theorem format_speed_matches_spec (s : ℚ) :
    format_speed s = format_speed_claim s := rfl

/-- C8: `update_network_speeds` never changes the spec's `WidgetState`
fields (expanded flag, edge, position, window and panel size, dragging,
resizing); it only touches the monitor state and the label texts.  The
Rate Sampler's own functions (`get_network_speed`, `format_speed`) act
on `NetworkMonitor` values alone and cannot reach these fields. -/
theorem update_network_speeds_frame (s : WidgetState) (t : ℚ) (stats : Option NetStats) :
    geometry_view (update_network_speeds s t stats).1 = geometry_view s := by
  unfold update_network_speeds
  split
  · rfl
  · cases s.network_monitor
    · rfl
    · rfl

/-- C3: the update timer runs exactly with the expanded state —
`set_expanded_state` starts it, `set_collapsed_state` stops it — and a
timer tick neither samples nor changes any state when the widget is not
expanded or no sampler exists; a sample is taken only with
`is_expanded` true. -/
theorem sampling_only_while_expanded :
    (∀ s im, (set_expanded_state s im).timer_active = true) ∧
    (∀ s, (set_collapsed_state s).timer_active = false) ∧
    (∀ s t stats, s.is_expanded = false ∨ s.network_monitor = none →
        update_network_speeds s t stats = (s, false)) ∧
    (∀ s t stats, (update_network_speeds s t stats).2 = true → s.is_expanded = true) := by
  refine ⟨fun s im => rfl, fun s => rfl, ?_, ?_⟩
  · intro s t stats h
    rcases h with h | h
    · simp [update_network_speeds, h]
    · simp [update_network_speeds, h]
  · intro s t stats h
    cases hexp : s.is_expanded
    · simp [update_network_speeds, hexp] at h
    · rfl

/-- Witness for C3: a tick in a collapsed state with no sampler does
nothing and takes no sample. -/
theorem sampling_only_while_expanded_witness :
    update_network_speeds exIdleState 3 none = (exIdleState, false) :=
  sampling_only_while_expanded.2.2.1 exIdleState 3 none (Or.inl rfl)

/-- Bounds of the width clamp used by `perform_resize` and
`load_position`. -/
theorem clampW_bounds (w : ℤ) :
    min_panel_width ≤ clampW w ∧ clampW w ≤ max_panel_width :=
  ⟨le_max_left _ _,
   max_le (by norm_num [min_panel_width, max_panel_width]) (min_le_right _ _)⟩

/-- Bounds of the height clamp used by `perform_resize` and
`load_position`. -/
theorem clampH_bounds (h : ℤ) :
    min_panel_height ≤ clampH h ∧ clampH h ≤ max_panel_height :=
  ⟨le_max_left _ _,
   max_le (by norm_num [min_panel_height, max_panel_height]) (min_le_right _ _)⟩

/-- C4: after every `perform_resize` step during an active resize and
after every `load_position` from a persistence file, the panel size lies
within `[min_panel_width, max_panel_width] x [min_panel_height,
max_panel_height]`, whatever the pointer delta or the file's numbers;
outside an active resize `perform_resize` changes nothing, and a missing
file leaves the panel size unchanged. -/
theorem panel_size_within_limits :
    (∀ s pos, s.resizing = true →
        min_panel_width ≤ (perform_resize s pos).panel_width ∧
        (perform_resize s pos).panel_width ≤ max_panel_width ∧
        min_panel_height ≤ (perform_resize s pos).panel_height ∧
        (perform_resize s pos).panel_height ≤ max_panel_height) ∧
    (∀ s pos, s.resizing = false → perform_resize s pos = s) ∧
    (∀ s d, min_panel_width ≤ (load_position s (some d)).panel_width ∧
        (load_position s (some d)).panel_width ≤ max_panel_width ∧
        min_panel_height ≤ (load_position s (some d)).panel_height ∧
        (load_position s (some d)).panel_height ≤ max_panel_height) ∧
    (∀ s, (load_position s none).panel_width = s.panel_width ∧
        (load_position s none).panel_height = s.panel_height) := by
  refine ⟨?_, ?_, ?_, ?_⟩
  · intro s pos h
    have hw : (perform_resize s pos).panel_width = clampW (resize_raw s pos).w := by
      simp [perform_resize, h]
    have hh : (perform_resize s pos).panel_height = clampH (resize_raw s pos).h := by
      simp [perform_resize, h]
    rw [hw, hh]
    exact ⟨(clampW_bounds _).1, (clampW_bounds _).2, (clampH_bounds _).1, (clampH_bounds _).2⟩
  · intro s pos h
    simp [perform_resize, h]
  · intro s d
    have hw : (load_position s (some d)).panel_width = clampW d.width := rfl
    have hh : (load_position s (some d)).panel_height = clampH d.height := rfl
    rw [hw, hh]
    exact ⟨(clampW_bounds _).1, (clampW_bounds _).2, (clampH_bounds _).1, (clampH_bounds _).2⟩
  · intro s
    simp only [load_position, position_widget]
    split
    · exact ⟨rfl, rfl⟩
    · exact ⟨rfl, rfl⟩

/-- Witness for C4: a huge pointer delta during an active resize still
lands within the limits. -/
theorem panel_size_within_limits_witness :
    min_panel_width ≤ (perform_resize exResizeState (9999, 9999)).panel_width ∧
    (perform_resize exResizeState (9999, 9999)).panel_width ≤ max_panel_width ∧
    min_panel_height ≤ (perform_resize exResizeState (9999, 9999)).panel_height ∧
    (perform_resize exResizeState (9999, 9999)).panel_height ≤ max_panel_height :=
  panel_size_within_limits.1 exResizeState (9999, 9999) rfl

/-- C2: releasing the mouse while dragging (the resize flag being clear,
as it always is during a drag) snaps to the nearest screen edge:
`is_on_right` becomes true exactly when the horizontal centre (x plus
half the current width) is strictly greater than `screen_width // 2`,
and the new x is `screen_width - panel_width - 10` (expanded, right),
`10` (expanded, left), `screen_width - widget_width` (collapsed, right)
or `0` (collapsed, left). -/
theorem drag_release_snaps_to_nearest_edge (s : WidgetState) (im : NetworkMonitor)
    (hd : s.dragging = true) (hr : s.resizing = false) :
    (mouseReleaseEvent s im).is_on_right =
      decide ((if s.is_expanded then s.x + Int.fdiv s.panel_width 2
               else s.x + Int.fdiv widget_width 2) > Int.fdiv s.screen_width 2) ∧
    (mouseReleaseEvent s im).x =
      (if s.is_expanded then
        (if decide ((if s.is_expanded then s.x + Int.fdiv s.panel_width 2
                     else s.x + Int.fdiv widget_width 2) > Int.fdiv s.screen_width 2) then
          s.screen_width - s.panel_width - 10
        else 10)
      else
        (if decide ((if s.is_expanded then s.x + Int.fdiv s.panel_width 2
                     else s.x + Int.fdiv widget_width 2) > Int.fdiv s.screen_width 2) then
          s.screen_width - widget_width
        else 0)) ∧
    (mouseReleaseEvent s im).dragging = false := by
  have hrel : mouseReleaseEvent s im = { snap_to_edge s with dragging := false } := by
    simp [mouseReleaseEvent, hd, hr]
  rw [hrel]
  exact ⟨rfl, rfl, rfl⟩

/-- Witness for C2: the concrete mid-drag state at x = 1900 on a 1920
screen snaps to the right edge, landing at x = 1908. -/
theorem drag_release_snaps_to_nearest_edge_witness :
    (mouseReleaseEvent exDragState exMon).is_on_right = true ∧
    (mouseReleaseEvent exDragState exMon).x = 1908 ∧
    (mouseReleaseEvent exDragState exMon).dragging = false :=
  drag_release_snaps_to_nearest_edge exDragState exMon rfl rfl

/-- C7 counterexample: the claim that every position-setting operation
keeps the widget inside the screen is false — a drag move applies the
raw pointer delta with no clamping.  From the concrete collapsed state
at (0, 500), pressing at global (5, 505) and dragging to (0, 50) puts
the widget at x = -5, outside the screen. -/
theorem drag_can_leave_screen_counterexample :
    (mouseMoveEventHeld (mousePressEvent exIdleState (5, 505) (5, 5)) (0, 50)).x < 0 := by
  decide

/-- C7 (amended): the in-bounds guarantee holds for the operations that
do clamp — restoring from the persistence file and the edge-snap
animation — provided the screen is at least 510 wide and 400 tall and
the panel size is within its limits; drag movement and resize can place
the widget outside the screen. -/
theorem position_bounds_after_load_and_snap (s : WidgetState) (d : PositionData)
    (hsw : 510 ≤ s.screen_width) (hsh : 400 ≤ s.screen_height)
    (hpw : s.panel_width ≤ max_panel_width) (hph : s.panel_height ≤ max_panel_height) :
    (0 ≤ (animate_to_edge s).x ∧
     (animate_to_edge s).x ≤ s.screen_width - (animate_to_edge s).width ∧
     0 ≤ (animate_to_edge s).y ∧
     (animate_to_edge s).y ≤ s.screen_height - (animate_to_edge s).height) ∧
    (0 ≤ (load_position s (some d)).x ∧
     (load_position s (some d)).x ≤ s.screen_width -
        (if s.is_expanded then (load_position s (some d)).panel_width else widget_width) ∧
     0 ≤ (load_position s (some d)).y ∧
     (load_position s (some d)).y ≤ s.screen_height -
        (if s.is_expanded then (load_position s (some d)).panel_height else widget_height)) := by
  have hwb := clampW_bounds d.width
  have hhb := clampH_bounds d.height
  constructor
  · cases he : s.is_expanded <;> cases hrt : s.is_on_right <;>
      simp [animate_to_edge, he, hrt, widget_width, widget_height,
        max_panel_width, max_panel_height] at hpw hph ⊢ <;> omega
  · have hx : (load_position s (some d)).x =
        max 0 (min d.x (if s.is_expanded then s.screen_width - clampW d.width
                        else s.screen_width - widget_width)) := rfl
    have hy : (load_position s (some d)).y =
        max 0 (min d.y (if s.is_expanded then s.screen_height - clampH d.height
                        else s.screen_height - widget_height)) := rfl
    have hpw2 : (load_position s (some d)).panel_width = clampW d.width := rfl
    have hph2 : (load_position s (some d)).panel_height = clampH d.height := rfl
    rw [hx, hy, hpw2, hph2]
    cases he : s.is_expanded <;>
      simp [he, widget_width, widget_height, max_panel_width, max_panel_height,
        min_panel_width, min_panel_height] at hwb hhb ⊢ <;> omega

/-- Witness for C7 (amended) at the concrete mid-drag state and a
persistence file holding out-of-range numbers. -/
theorem position_bounds_after_load_and_snap_witness :
    0 ≤ (animate_to_edge exDragState).x ∧
    0 ≤ (load_position exDragState (some ⟨5000, -50, 9999, 1, true, true⟩)).x :=
  ⟨(position_bounds_after_load_and_snap exDragState ⟨5000, -50, 9999, 1, true, true⟩
      (by decide) (by decide) (by decide) (by decide)).1.1,
   (position_bounds_after_load_and_snap exDragState ⟨5000, -50, 9999, 1, true, true⟩
      (by decide) (by decide) (by decide) (by decide)).2.1⟩

/-! Helper lemmas about how the handlers treat the two pointer flags. -/

/-- Lemma: `animate_to_edge` does not touch the pointer flags. -/
theorem animate_to_edge_flags (s : WidgetState) :
    (animate_to_edge s).dragging = s.dragging ∧ (animate_to_edge s).resizing = s.resizing :=
  ⟨rfl, rfl⟩

/-- Lemma: `collapse_widget` does not touch the pointer flags. -/
theorem collapse_widget_flags (s : WidgetState) :
    (collapse_widget s).dragging = s.dragging ∧ (collapse_widget s).resizing = s.resizing :=
  ⟨rfl, rfl⟩

/-- Lemma: `expand_widget` does not touch the pointer flags. -/
theorem expand_widget_flags (s : WidgetState) (im : NetworkMonitor) :
    (expand_widget s im).dragging = s.dragging ∧
    (expand_widget s im).resizing = s.resizing :=
  ⟨rfl, rfl⟩

/-- Lemma: `perform_resize` does not touch the pointer flags. -/
theorem perform_resize_flags (s : WidgetState) (pos : ℤ × ℤ) :
    (perform_resize s pos).dragging = s.dragging ∧
    (perform_resize s pos).resizing = s.resizing := by
  unfold perform_resize
  split
  · exact ⟨rfl, rfl⟩
  · exact ⟨rfl, rfl⟩

/-- A timer tick does not touch the pointer flags. -/
theorem update_network_speeds_flags (s : WidgetState) (t : ℚ) (stats : Option NetStats) :
    (update_network_speeds s t stats).1.dragging = s.dragging ∧
    (update_network_speeds s t stats).1.resizing = s.resizing := by
  unfold update_network_speeds
  split
  · exact ⟨rfl, rfl⟩
  · cases s.network_monitor
    · exact ⟨rfl, rfl⟩
    · exact ⟨rfl, rfl⟩

/-- A left-button press always leaves `dragging` clear (even when it
enters a resize). -/
theorem mousePressEvent_dragging (s : WidgetState) (g l : ℤ × ℤ) :
    (mousePressEvent s g l).dragging = false := by
  unfold mousePressEvent
  dsimp only
  split
  · split
    · rfl
    · rfl
  · rfl

/-- A held-pointer move never changes `resizing`. -/
theorem mouseMoveEventHeld_resizing (s : WidgetState) (g : ℤ × ℤ) :
    (mouseMoveEventHeld s g).resizing = s.resizing := by
  unfold mouseMoveEventHeld
  split
  · exact (perform_resize_flags s g).2
  · dsimp only
    split
    · split
      · rfl
      · rfl
    · split
      · rfl
      · rfl

/-- A held-pointer move during a resize keeps `dragging` as it was. -/
theorem mouseMoveEventHeld_dragging_of_resizing (s : WidgetState) (g : ℤ × ℤ)
    (h : s.resizing = true) :
    (mouseMoveEventHeld s g).dragging = s.dragging := by
  simp only [mouseMoveEventHeld, h]
  simpa using (perform_resize_flags s g).1

/-- Every event preserves the exclusion of the two pointer flags. -/
theorem step_preserves_flag_excl (s : WidgetState) (e : Event)
    (h : s.dragging = false ∨ s.resizing = false) :
    (step s e).dragging = false ∨ (step s e).resizing = false := by
  cases e with
  | press g l => exact Or.inl (mousePressEvent_dragging s g l)
  | moveHeld g =>
      cases hr : s.resizing
      · exact Or.inr ((mouseMoveEventHeld_resizing s g).trans hr)
      · refine Or.inl ?_
        rw [show step s (.moveHeld g) = mouseMoveEventHeld s g from rfl,
          mouseMoveEventHeld_dragging_of_resizing s g hr]
        rcases h with h | h
        · exact h
        · rw [h] at hr; exact absurd hr (by simp)
  | moveFree g => exact h
  | release im =>
      cases hr : s.resizing
      · cases hd : s.dragging
        · refine Or.inl ?_
          have : mouseReleaseEvent s im =
              (if s.is_expanded then collapse_widget s
               else if s.hover_expand_enabled = false then expand_widget s im else s) := by
            simp [mouseReleaseEvent, hr, hd]
          rw [show step s (.release im) = mouseReleaseEvent s im from rfl, this]
          split
          · exact (collapse_widget_flags s).1.trans hd
          · split
            · exact (expand_widget_flags s im).1.trans hd
            · exact hd
        · refine Or.inl ?_
          have : mouseReleaseEvent s im = { snap_to_edge s with dragging := false } := by
            simp [mouseReleaseEvent, hr, hd]
          rw [show step s (.release im) = mouseReleaseEvent s im from rfl, this]
      · refine Or.inr ?_
        have : mouseReleaseEvent s im = finish_resize s := by
          simp [mouseReleaseEvent, hr]
        rw [show step s (.release im) = mouseReleaseEvent s im from rfl, this]
        simp [finish_resize, hr]
  | timerCollapse =>
      rcases h with h | h
      · exact Or.inl ((collapse_widget_flags s).1.trans h)
      · exact Or.inr ((collapse_widget_flags s).2.trans h)
  | hoverEnter im =>
      rw [show step s (.hoverEnter im) =
        (if s.hover_expand_enabled ∧ s.is_expanded = false ∧
            s.dragging = false ∧ s.resizing = false then expand_widget s im else s) from rfl]
      split
      · rcases h with h | h
        · exact Or.inl ((expand_widget_flags s im).1.trans h)
        · exact Or.inr ((expand_widget_flags s im).2.trans h)
      · exact h
  | hoverLeave => exact h
  | tick t stats =>
      rcases h with h | h
      · exact Or.inl ((update_network_speeds_flags s t stats).1.trans h)
      · exact Or.inr ((update_network_speeds_flags s t stats).2.trans h)
  | toggleHover => exact h
  | trayShow im =>
      rw [show step s (.trayShow im) =
        (if s.is_expanded = false then expand_widget s im else s) from rfl]
      split
      · rcases h with h | h
        · exact Or.inl ((expand_widget_flags s im).1.trans h)
        · exact Or.inr ((expand_widget_flags s im).2.trans h)
      · exact h

/-- Lemma: `load_position` does not touch the pointer flags. -/
theorem load_position_dragging (s : WidgetState) (data : Option PositionData) :
    (load_position s data).dragging = s.dragging := by
  cases data
  · unfold load_position position_widget
    dsimp only
    split
    · rfl
    · rfl
  · rfl

/-- The constructor leaves `dragging` clear. -/
theorem initial_state_dragging (sw sh : ℤ) (data : Option PositionData)
    (im : NetworkMonitor) : (initial_state sw sh data im).dragging = false := by
  simp only [initial_state]
  rw [show ∀ s, (show_launch_animation s im).dragging = s.dragging from fun _ => rfl]
  rw [load_position_dragging]
  rfl

/-- C10: in no reachable state are `dragging` and `resizing` both set:
every press clears both, a move sets `dragging` only outside a resize,
`start_resize` runs from a press before any drag can begin, and each
release clears whichever flag was active. -/
theorem dragging_resizing_mutually_exclusive (s : WidgetState) (h : Reachable s) :
    ¬(s.dragging = true ∧ s.resizing = true) := by
  have key : s.dragging = false ∨ s.resizing = false := by
    induction h with
    | init sw sh data im => exact Or.inl (initial_state_dragging sw sh data im)
    | next s e _ ih => exact step_preserves_flag_excl s e ih
  rcases key with k | k <;> simp [k]

/-- Witness for C10 at the freshly constructed widget. -/
theorem dragging_resizing_mutually_exclusive_witness :
    ¬((initial_state 1920 1080 none exMon).dragging = true ∧
      (initial_state 1920 1080 none exMon).resizing = true) :=
  dragging_resizing_mutually_exclusive (initial_state 1920 1080 none exMon)
    (Reachable.init 1920 1080 none exMon)

/-! Helper lemmas for the press/move/release interaction (claim C6). -/

/-- The resize-zone test only reads fields `pressBase` leaves alone. -/
theorem pressBase_zone (s : WidgetState) (g l : ℤ × ℤ) :
    get_resize_cursor_zone (pressBase s g) l = get_resize_cursor_zone s l := rfl

/-- A resize zone is only ever reported while expanded. -/
theorem zone_some_expanded (s : WidgetState) (l : ℤ × ℤ) (c : CursorKind)
    (h : get_resize_cursor_zone s l = some c) : s.is_expanded = true := by
  cases he : s.is_expanded
  · simp [get_resize_cursor_zone, he] at h
  · rfl

/-- A press outside every resize zone just records the press data. -/
theorem mousePressEvent_zone_none (s : WidgetState) (g l : ℤ × ℤ)
    (h : get_resize_cursor_zone s l = none) :
    mousePressEvent s g l = pressBase s g := by
  unfold mousePressEvent
  dsimp only
  rw [pressBase_zone s g l, h]
  split
  · rfl
  · rfl

/-- A press inside a resize zone records the press data and enters the
resize. -/
theorem mousePressEvent_zone_some (s : WidgetState) (g l : ℤ × ℤ) (c : CursorKind)
    (h : get_resize_cursor_zone s l = some c) :
    mousePressEvent s g l = start_resize (pressBase s g) g c := by
  have he : (pressBase s g).is_expanded = true := zone_some_expanded s l c h
  unfold mousePressEvent
  dsimp only
  rw [pressBase_zone s g l, h, if_pos he]

/-- A held move below the drag threshold with both flags clear is a
no-op. -/
theorem mouseMoveEventHeld_noop (s : WidgetState) (g : ℤ × ℤ)
    (hd : s.dragging = false) (hr : s.resizing = false)
    (hm : manhattanLength (g.1 - s.mouse_press_position.1, g.2 - s.mouse_press_position.2) ≤
      drag_threshold) :
    mouseMoveEventHeld s g = s := by
  simp [mouseMoveEventHeld, hd, hr, not_lt.mpr hm]

/-- A whole move sequence below the drag threshold with both flags
clear is a no-op. -/
theorem fold_noop (moves : List (ℤ × ℤ)) (s : WidgetState)
    (hd : s.dragging = false) (hr : s.resizing = false)
    (hall : ∀ gm ∈ moves,
      manhattanLength (gm.1 - s.mouse_press_position.1, gm.2 - s.mouse_press_position.2) ≤
        drag_threshold) :
    moves.foldl mouseMoveEventHeld s = s := by
  induction moves with
  | nil => rfl
  | cons m ms ih =>
      rw [List.foldl_cons, mouseMoveEventHeld_noop s m hd hr (hall m (by simp))]
      exact ih (fun gm hgm => hall gm (by simp [hgm]))

/-- Outside a resize, one held move keeps `resizing` clear, keeps the
press position, and leaves `dragging` set exactly when it was already
set or this move exceeds the threshold. -/
theorem mouseMoveEventHeld_step_props (s : WidgetState) (g : ℤ × ℤ)
    (hr : s.resizing = false) :
    (mouseMoveEventHeld s g).resizing = false ∧
    (mouseMoveEventHeld s g).mouse_press_position = s.mouse_press_position ∧
    (mouseMoveEventHeld s g).dragging =
      (s.dragging ||
        decide (manhattanLength (g.1 - s.mouse_press_position.1,
          g.2 - s.mouse_press_position.2) > drag_threshold)) := by
  cases hd : s.dragging
  · by_cases hm : manhattanLength (g.1 - s.mouse_press_position.1,
        g.2 - s.mouse_press_position.2) > drag_threshold
    · simp [mouseMoveEventHeld, hd, hr, hm]
    · simp [mouseMoveEventHeld, hd, hr, hm]
  · simp [mouseMoveEventHeld, hd, hr]

/-- Outside a resize, a move sequence keeps `resizing` clear, keeps the
press position, and sets `dragging` exactly when some move exceeded the
threshold (drags are sticky). -/
theorem fold_step_props (moves : List (ℤ × ℤ)) : ∀ s : WidgetState, s.resizing = false →
    (moves.foldl mouseMoveEventHeld s).resizing = false ∧
    (moves.foldl mouseMoveEventHeld s).mouse_press_position = s.mouse_press_position ∧
    (moves.foldl mouseMoveEventHeld s).dragging =
      (s.dragging || moves.any (fun gm =>
        decide (manhattanLength (gm.1 - s.mouse_press_position.1,
          gm.2 - s.mouse_press_position.2) > drag_threshold))) := by
  induction moves with
  | nil => intro s hr; simp [hr]
  | cons m ms ih =>
      intro s hr
      have hstep := mouseMoveEventHeld_step_props s m hr
      have ihs := ih (mouseMoveEventHeld s m) hstep.1
      refine ⟨ihs.1, ihs.2.1.trans hstep.2.1, ?_⟩
      rw [List.foldl_cons, ihs.2.2, hstep.2.1, hstep.2.2, List.any_cons, Bool.or_assoc]

/-- During a resize, a move sequence keeps `resizing` set and
`dragging` clear. -/
theorem fold_resizing_props (moves : List (ℤ × ℤ)) : ∀ s : WidgetState,
    s.resizing = true → s.dragging = false →
    (moves.foldl mouseMoveEventHeld s).resizing = true ∧
    (moves.foldl mouseMoveEventHeld s).dragging = false := by
  induction moves with
  | nil => intro s h1 h2; exact ⟨h1, h2⟩
  | cons m ms ih =>
      intro s h1 h2
      have e : mouseMoveEventHeld s m = perform_resize s m := by
        simp [mouseMoveEventHeld, h1]
      rw [List.foldl_cons, e]
      exact ih _ ((perform_resize_flags s m).2.trans h1)
        ((perform_resize_flags s m).1.trans h2)

/-- C6: a left-button press followed by held moves and a release is a
click exactly when no resize zone was hit and the pointer never moved
more than `drag_threshold` (Manhattan distance) from the press: the
click collapses an expanded widget, expands a collapsed widget with
hover-expand off, and does nothing on a collapsed widget with
hover-expand on.  Once some move exceeds the threshold the interaction
is a drag and the release edge-snaps instead; a press in a resize zone
makes the release finish the resize. -/
theorem click_vs_drag_classification (s : WidgetState) (g l : ℤ × ℤ)
    (moves : List (ℤ × ℤ)) (im : NetworkMonitor) :
    (get_resize_cursor_zone s l = none →
      ((moves.all (fun gm =>
          decide (manhattanLength (gm.1 - g.1, gm.2 - g.2) ≤ drag_threshold)) = true →
        ((s.is_expanded = true →
          mouseReleaseEvent (moves.foldl mouseMoveEventHeld (mousePressEvent s g l)) im =
            collapse_widget (mousePressEvent s g l)) ∧
         (s.is_expanded = false → s.hover_expand_enabled = false →
          mouseReleaseEvent (moves.foldl mouseMoveEventHeld (mousePressEvent s g l)) im =
            expand_widget (mousePressEvent s g l) im) ∧
         (s.is_expanded = false → s.hover_expand_enabled = true →
          mouseReleaseEvent (moves.foldl mouseMoveEventHeld (mousePressEvent s g l)) im =
            mousePressEvent s g l))) ∧
       (moves.any (fun gm =>
          decide (manhattanLength (gm.1 - g.1, gm.2 - g.2) > drag_threshold)) = true →
        mouseReleaseEvent (moves.foldl mouseMoveEventHeld (mousePressEvent s g l)) im =
          { snap_to_edge (moves.foldl mouseMoveEventHeld (mousePressEvent s g l)) with
            dragging := false }))) ∧
    (∀ c, get_resize_cursor_zone s l = some c →
      mouseReleaseEvent (moves.foldl mouseMoveEventHeld (mousePressEvent s g l)) im =
        finish_resize (moves.foldl mouseMoveEventHeld (mousePressEvent s g l))) := by
  constructor
  · intro hz
    have hpress : mousePressEvent s g l = pressBase s g :=
      mousePressEvent_zone_none s g l hz
    constructor
    · intro hall
      have hall2 : ∀ gm ∈ moves,
          manhattanLength (gm.1 - g.1, gm.2 - g.2) ≤ drag_threshold := by
        intro gm hgm
        simpa using List.all_eq_true.mp hall gm hgm
      have hfold : moves.foldl mouseMoveEventHeld (mousePressEvent s g l) = pressBase s g := by
        rw [hpress]
        exact fold_noop moves (pressBase s g) rfl rfl hall2
      refine ⟨?_, ?_, ?_⟩
      · intro he
        rw [hfold, hpress]
        simp [mouseReleaseEvent, show (pressBase s g).resizing = false from rfl,
          show (pressBase s g).dragging = false from rfl,
          show (pressBase s g).is_expanded = true from he]
      · intro he hh
        rw [hfold, hpress]
        simp [mouseReleaseEvent, show (pressBase s g).resizing = false from rfl,
          show (pressBase s g).dragging = false from rfl,
          show (pressBase s g).is_expanded = false from he,
          show (pressBase s g).hover_expand_enabled = false from hh]
      · intro he hh
        rw [hfold, hpress]
        simp [mouseReleaseEvent, show (pressBase s g).resizing = false from rfl,
          show (pressBase s g).dragging = false from rfl,
          show (pressBase s g).is_expanded = false from he,
          show (pressBase s g).hover_expand_enabled = true from hh]
    · intro hany
      have hr1 : (mousePressEvent s g l).resizing = false := by rw [hpress]; rfl
      have hprops := fold_step_props moves (mousePressEvent s g l) hr1
      have hd : (moves.foldl mouseMoveEventHeld (mousePressEvent s g l)).dragging = true := by
        rw [hprops.2.2, hpress]
        simpa [pressBase] using hany
      simp [mouseReleaseEvent, hprops.1, hd]
  · intro c hc
    have hpress := mousePressEvent_zone_some s g l c hc
    have h1 : (mousePressEvent s g l).resizing = true := by rw [hpress]; rfl
    have h2 : (mousePressEvent s g l).dragging = false := by rw [hpress]; rfl
    have hprops := fold_resizing_props moves (mousePressEvent s g l) h1 h2
    simp [mouseReleaseEvent, hprops.1]

/-- Witness for C6: on the concrete expanded state, a press in the
panel's interior with no movement collapses the widget on release. -/
theorem click_vs_drag_classification_witness :
    mouseReleaseEvent (mousePressEvent exExpandedState (1700, 500) (100, 80)) exMon =
      collapse_widget (mousePressEvent exExpandedState (1700, 500) (100, 80)) :=
  (((click_vs_drag_classification exExpandedState (1700, 500) (100, 80) [] exMon).1
      (by decide)).1 rfl).1 rfl

end NetMonitor
